import Mathlib

/-!
Verification of the GHGRP Envirofacts API client
(src/envirofacts_api/Get_GHGRP_data.py, class GHGRP_API).

The Python client is embedded shallowly:

* A pandas DataFrame obtained from a CSV body is a list of column names
  together with a list of rows, each row a list of cell strings.
* The network is an oracle `Env` giving, for every URL, the HTTP status
  code returned by `requests.get` and the tabular body that `pd.read_csv`
  would parse from that URL.
* Every network round trip is recorded in a trace of `Event`s:
  `Event.httpGet url` is the `requests.get(url)` reachability probe and
  `Event.csvRead url` is the `pd.read_csv(url)` fetch.
* Python exceptions are modelled by `Except Err`: `Err.unreachable` is the
  AssertionError raised by `read_path` (the spec calls it
  UnreachableResourceError), `Err.countFormat` the ValueError raised by
  `get_row_count` (UnrecognizedCountFormatError), `Err.yearColumn` the
  ValueError raised by `get_reporting_year_query`
  (UnrecognizedYearColumnError), and `Err.pyError` any other Python
  runtime error (an IndexError from indexing an empty array, or the
  ValueError raised by `int()` on a non-numeric string).
* `pd.concat` restricted to frames sharing one schema is `concatAll`;
  `drop_duplicates` (keep the first occurrence, preserve order) is
  `drop_duplicates`; `np.arange` for a positive step is `arange`.
-/

/-- A parsed CSV table: ordered column headers and ordered rows of cells. -/
structure DataFrame where
  cols : List String
  rows : List (List String)
deriving DecidableEq, Repr

/-- Pandas `DataFrame.empty`: true when either axis has length zero. -/
def dfEmpty (df : DataFrame) : Bool :=
  df.rows.isEmpty || df.cols.isEmpty

/-- The network oracle: HTTP status of `requests.get(url)` and the table
`pd.read_csv(url)` would produce. -/
structure Env where
  status : String → Nat
  body : String → DataFrame

/-- One network round trip, as recorded in a trace. -/
inductive Event where
  | httpGet (url : String)
  | csvRead (url : String)
deriving DecidableEq, Repr

/-- The Python exceptions the client can raise. -/
inductive Err where
  | unreachable
  | countFormat
  | yearColumn
  | pyError
deriving DecidableEq, Repr

/-- GHGRP_API.BASE_URL (note the trailing slash). -/
def BASE_URL : String := "https://enviro.epa.gov/enviro/efservice/"

/-- GHGRP_API.read_path: assert `requests.get(path).status_code == 200`
(AssertionError otherwise), then `pd.read_csv(path)`; the probe and the
fetch are two separate round trips against the same URL. -/
def read_path (env : Env) (path : String) : Except Err DataFrame × List Event :=
  if env.status path = 200 then
    (.ok (env.body path), [.httpGet path, .csvRead path])
  else
    (.error .unreachable, [.httpGet path])

/-- The URL built by GHGRP_API.get_table_slice:
`f"{BASE_URL}/{table}/{custom_query}/rows/{start_row}:{end_row}/csv"`,
with `custom_query or ""` turning a missing query into the empty string. -/
def slicePath (table : String) (start_row end_row : Int)
    (custom_query : Option String) : String :=
  BASE_URL ++ "/" ++ table ++ "/" ++ custom_query.getD "" ++ "/rows/" ++
    toString start_row ++ ":" ++ toString end_row ++ "/csv"

/-- GHGRP_API.get_table_slice: fetch one row range of a table. -/
def get_table_slice (env : Env) (table : String) (start_row end_row : Int)
    (custom_query : Option String) : Except Err DataFrame × List Event :=
  read_path env (slicePath table start_row end_row custom_query)

/-- The URL built by GHGRP_API.get_row_count:
`f"{BASE_URL}/{table}/{custom_query}/count/csv"`. -/
def countPath (table : String) (custom_query : Option String) : String :=
  BASE_URL ++ "/" ++ table ++ "/" ++ custom_query.getD "" ++ "/count/csv"

/-- The value of a decimal digit character, `none` on any other char. -/
def decDigit (c : Char) : Option Nat :=
  if 48 ≤ c.toNat ∧ c.toNat ≤ 57 then some (c.toNat - 48) else none

/-- The value of a nonempty all-digit character list, `none` otherwise. -/
def digitsVal (cs : List Char) : Option Nat :=
  if cs.isEmpty then none
  else cs.foldl (fun acc c =>
    match acc, decDigit c with
    | some a, some d => some (a * 10 + d)
    | _, _ => none) (some 0)

/-- Python `int(s)` on a cell or header string: an optional sign followed
by decimal digits; `none` when `int()` would raise a ValueError. -/
def pyInt (s : String) : Option Int :=
  match s.toList with
  | '-' :: rest => (digitsVal rest).map (fun n => -(n : Int))
  | '+' :: rest => (digitsVal rest).map (fun n => (n : Int))
  | cs => (digitsVal cs).map (fun n => (n : Int))

/-- `df["c"].values[0]`: the first value of the column named `c`, `none`
when the access raises (column missing or no rows). -/
def colFirstValue (df : DataFrame) (c : String) : Option String :=
  match df.cols.findIdx? (fun x => x = c) with
  | none => none
  | some i =>
    match df.rows.head? with
    | none => none
    | some r => r[i]?

/-- GHGRP_API.get_row_count: fetch the count endpoint and extract the row
count, trying the TOTALQUERYRESULTS column first, then a column-less
response whose sole header is the count, and raising
ValueError("Count file format not recognized.") otherwise. -/
def get_row_count (env : Env) (table : String) (custom_query : Option String) :
    Except Err Int × List Event :=
  let path := countPath table custom_query
  match read_path env path with
  | (.error e, tr) => (.error e, tr)
  | (.ok df, tr) =>
    if "TOTALQUERYRESULTS" ∈ df.cols then
      match colFirstValue df "TOTALQUERYRESULTS" with
      | some v =>
        match pyInt v with
        | some n => (.ok n, tr)
        | none => (.error .pyError, tr)
      | none => (.error .pyError, tr)
    else if dfEmpty df then
      match df.cols.head? with
      | some h =>
        match pyInt h with
        | some n => (.ok n, tr)
        | none => (.error .pyError, tr)
      | none => (.error .pyError, tr)
    else
      (.error .countFormat, tr)

/-- Python str.lower on one character, for the ASCII column names the
service uses. -/
def lowerChar (c : Char) : Char :=
  if 65 ≤ c.toNat ∧ c.toNat ≤ 90 then Char.ofNat (c.toNat + 32) else c

/-- Pandas df.columns.str.lower() applied to one column name. -/
def strLower (s : String) : String :=
  String.mk (s.toList.map lowerChar)

/-- The 1-row probe URL built by GHGRP_API.get_reporting_year_query:
`f"{BASE_URL}/{table}/rows/0:1/csv"`. -/
def probePath (table : String) : String :=
  BASE_URL ++ "/" ++ table ++ "/rows/0:1/csv"

/-- GHGRP_API.get_reporting_year_query: with no year, return the empty
query without touching the network; otherwise probe one row of the table
and pick the year column by case-insensitive name, preferring
reporting_year over year, raising
ValueError("Column name for reporting year not recognized.") when neither
is present. -/
def get_reporting_year_query (env : Env) (table : String)
    (reporting_year : Option Int) : Except Err String × List Event :=
  match reporting_year with
  | none => (.ok "", [])
  | some y =>
    match read_path env (probePath table) with
    | (.error e, tr) => (.error e, tr)
    | (.ok df, tr) =>
      if "reporting_year" ∈ df.cols.map strLower then
        (.ok ("reporting_year/" ++ toString y), tr)
      else if "year" ∈ df.cols.map strLower then
        (.ok ("year/" ++ toString y), tr)
      else
        (.error .yearColumn, tr)

/-- np.arange(start, stop, step) for a positive step:
`[start, start + step, ...)`, stopping strictly before `stop`. -/
def arange (start stop step : Int) : List Int :=
  (List.range (((stop - start + step - 1) / step).toNat)).map
    (fun (i : Nat) => start + step * (i : Int))

/-- The per-request row ceiling of the remote service. -/
def CHUNK : Int := 10000

/-- The chunk boundary sequence of GHGRP_API.get_data:
`np.append(np.arange(start=0, stop=max_row, step=10000), max_row)`. -/
def row_range (max_row : Int) : List Int :=
  arange 0 max_row CHUNK ++ [max_row]

/-- The slice loop of GHGRP_API.get_data: fetch every boundary pair in
order, aborting on the first failure; the trace keeps the round trips of
the successful fetches made before the failure. -/
def fetchSlices (env : Env) (table : String) (custom_query : Option String) :
    List (Int × Int) → Except Err (List DataFrame) × List Event
  | [] => (.ok [], [])
  | p :: rest =>
    match get_table_slice env table p.1 p.2 custom_query with
    | (.error e, tr) => (.error e, tr)
    | (.ok df, tr) =>
      match fetchSlices env table custom_query rest with
      | (.error e, tr2) => (.error e, tr ++ tr2)
      | (.ok dfs, tr2) => (.ok (df :: dfs), tr ++ tr2)

/-- pd.concat on frames sharing one schema: the schema of the first frame
and the rows of all frames in arrival order. -/
def concatAll (dfs : List DataFrame) : DataFrame :=
  { cols := ((dfs.head?).map DataFrame.cols).getD []
    rows := dfs.flatMap DataFrame.rows }

/-- The worker of drop_duplicates: keep a row if it was not seen before. -/
def dedupAux (seen : List (List String)) :
    List (List String) → List (List String)
  | [] => []
  | r :: rest =>
    if r ∈ seen then dedupAux seen rest else r :: dedupAux (r :: seen) rest

/-- pandas DataFrame.drop_duplicates with the default keep="first":
remove every row equal to an earlier row, preserving the order of the
kept rows. -/
def drop_duplicates (df : DataFrame) : DataFrame :=
  { cols := df.cols, rows := dedupAux [] df.rows }

/-- GHGRP_API.get_data: resolve the year query, determine the row total
(`rows or get_row_count(...)`, so 0 and None both fall back to the
counter), slice into 10,000-row chunks, fetch each chunk, concatenate and
deduplicate; with at most one boundary the function returns Python None,
modelled as `Option.none`. -/
def get_data (env : Env) (table : String) (reporting_year : Option Int)
    (rows : Option Int) : Except Err (Option DataFrame) × List Event :=
  match get_reporting_year_query env table reporting_year with
  | (.error e, tr) => (.error e, tr)
  | (.ok reporting_year_query, tr1) =>
    let maxRowRes : Except Err Int × List Event :=
      match rows with
      | some r =>
        if r = 0 then get_row_count env table (some reporting_year_query)
        else (.ok r, [])
      | none => get_row_count env table (some reporting_year_query)
    match maxRowRes with
    | (.error e, tr2) => (.error e, tr1 ++ tr2)
    | (.ok max_row, tr2) =>
      let rr := row_range max_row
      if rr.length > 1 then
        match fetchSlices env table (some reporting_year_query)
            (rr.zip rr.tail) with
        | (.error e, tr3) => (.error e, tr1 ++ tr2 ++ tr3)
        | (.ok slices, tr3) =>
          (.ok (some (drop_duplicates (concatAll slices))), tr1 ++ tr2 ++ tr3)
      else
        (.ok none, tr1 ++ tr2)

/-- The consecutive differences of a boundary list. -/
def steps : List Int → List Int
  | [] => []
  | [_] => []
  | a :: b :: rest => (b - a) :: steps (b :: rest)

/-- The diagnostic the driver prints when a (table, year) item fails. -/
def driver_message (table : String) (year : Int) : String :=
  "Problem with table: " ++ table ++ " (" ++ toString year ++ ")"

/-- The per-item body of the driver loop in `__main__`: call get_data and
write the result, and on any exception (including the AttributeError from
calling `.to_csv` on None) print the diagnostic naming the table. -/
def process_table_year (env : Env) (table : String) (year : Int) :
    DataFrame ⊕ String :=
  match get_data env table (some year) none with
  | (.ok (some df), _) => .inl df
  | _ => .inr (driver_message table year)

deriving instance DecidableEq for Except

/-- Sample count response carrying a TOTALQUERYRESULTS column. -/
def dfCount42 : DataFrame :=
  { cols := ["TOTALQUERYRESULTS"], rows := [["42"]] }

/-- Sample count response reporting zero rows. -/
def dfCount0 : DataFrame :=
  { cols := ["TOTALQUERYRESULTS"], rows := [["0"]] }

/-- Sample column-less count response whose sole header is the count. -/
def dfHeader0 : DataFrame :=
  { cols := ["0"], rows := [] }

/-- Sample response matching neither count shape. -/
def dfOther : DataFrame :=
  { cols := ["FACILITY_ID"], rows := [["1001"]] }

/-- Sample probe schema with a Reporting_Year column. -/
def dfRY : DataFrame :=
  { cols := ["Reporting_Year", "FACILITY_ID"], rows := [["2018", "1001"]] }

/-- Sample probe schema with only a YEAR column. -/
def dfYEAR : DataFrame :=
  { cols := ["YEAR"], rows := [["2018"]] }

/-- Sample probe schema with both year-like columns. -/
def dfBoth : DataFrame :=
  { cols := ["Reporting_Year", "Year"], rows := [["2018", "2018"]] }

/-- Sample fetched slice: rows x and y under schema [A]. -/
def dfSlice1 : DataFrame :=
  { cols := ["A"], rows := [["x"], ["y"]] }

/-- Sample fetched slice sharing exactly row y with dfSlice1. -/
def dfSlice2 : DataFrame :=
  { cols := ["A"], rows := [["y"], ["z"]] }

/-- An environment answering 200 everywhere with a fixed body. -/
def constEnv (df : DataFrame) : Env :=
  { status := fun _ => 200, body := fun _ => df }

/-- An environment on which every probe fails. -/
def failEnv : Env :=
  { status := fun _ => 404, body := fun _ => dfOther }

/-- The chunk count `ceil(t / 10000)` that np.arange produces. -/
def Kc (t : Int) : Nat :=
  ((t - 0 + CHUNK - 1) / CHUNK).toNat

lemma arange_eq (t : Int) :
    arange 0 t CHUNK =
      (List.range (Kc t)).map (fun (i : Nat) => 0 + CHUNK * (i : Int)) :=
  rfl

lemma row_range_eq (t : Int) :
    row_range t =
      (List.range (Kc t)).map (fun (i : Nat) => 0 + CHUNK * (i : Int)) ++ [t] := by
  rw [row_range, arange_eq]

lemma Kc_pos (t : Int) (h : 1 ≤ t) : 1 ≤ Kc t := by
  unfold Kc CHUNK; omega

lemma le_chunk_mul_Kc (t : Int) (h : 1 ≤ t) : t ≤ CHUNK * (Kc t : Int) := by
  unfold Kc CHUNK; omega

lemma range_map_affine (a : Int) (k : Nat) :
    (List.range (k+1)).map (fun (i : Nat) => a + CHUNK * (i : Int)) =
      a :: (List.range k).map (fun (i : Nat) => (a + CHUNK) + CHUNK * (i : Int)) := by
  rw [List.range_succ_eq_map]
  simp only [List.map_cons, List.map_map, Nat.cast_zero, mul_zero, add_zero]
  refine congrArg (a :: ·) (List.map_congr_left ?_)
  intro i _
  simp only [Function.comp_apply]
  push_cast
  ring

lemma steps_affine (k : Nat) : ∀ (a t : Int),
    steps ((List.range (k+1)).map (fun (i : Nat) => a + CHUNK * (i : Int)) ++ [t]) =
      List.replicate k CHUNK ++ [t - (a + CHUNK * (k : Nat))] := by
  induction k with
  | zero =>
    intro a t
    rw [range_map_affine]
    simp only [List.range_zero, List.map_nil, List.cons_append, List.nil_append]
    simp [steps]
  | succ k ih =>
    intro a t
    rw [range_map_affine, range_map_affine]
    simp only [List.cons_append]
    rw [steps, ← List.cons_append, ← range_map_affine, ih]
    rw [show a + CHUNK - a = CHUNK from by ring]
    rw [show t - (a + CHUNK + CHUNK * (k : Int)) =
        t - (a + CHUNK * ((k + 1 : Nat) : Int)) from by push_cast; ring]
    rw [List.replicate_succ]
    simp

lemma steps_row_range (t : Int) (j : Nat) (hj : Kc t = j + 1) :
    steps (row_range t) = List.replicate j CHUNK ++ [t - CHUNK * (j : Int)] := by
  rw [row_range_eq, hj, steps_affine]
  simp

lemma row_range_head (t : Int) (ht : 0 ≤ t) : (row_range t).head? = some 0 := by
  rcases eq_or_lt_of_le ht with h | h
  · rw [← h]; decide
  · obtain ⟨j, hj⟩ : ∃ j, Kc t = j + 1 := ⟨Kc t - 1, by have := Kc_pos t h; omega⟩
    rw [row_range_eq, hj, range_map_affine]
    simp

lemma row_range_getLast (t : Int) : (row_range t).getLast? = some t := by
  rw [row_range]
  exact List.getLast?_concat _

lemma row_range_length (t : Int) : (row_range t).length = Kc t + 1 := by
  rw [row_range_eq]
  simp

lemma fetchSlices_ok (env : Env) (table : String) (cq : Option String) :
    ∀ ps : List (Int × Int),
      (∀ p ∈ ps, env.status (slicePath table p.1 p.2 cq) = 200) →
      fetchSlices env table cq ps =
        (.ok (ps.map fun p => env.body (slicePath table p.1 p.2 cq)),
         ps.flatMap fun p =>
           [Event.httpGet (slicePath table p.1 p.2 cq),
            Event.csvRead (slicePath table p.1 p.2 cq)]) := by
  intro ps
  induction ps with
  | nil => intro _; rfl
  | cons p rest ih =>
    intro h
    have hp : env.status (slicePath table p.1 p.2 cq) = 200 :=
      h p (List.mem_cons_self p rest)
    have h' : ∀ q ∈ rest, env.status (slicePath table q.1 q.2 cq) = 200 :=
      fun q hq => h q (List.mem_cons_of_mem p hq)
    simp only [fetchSlices, get_table_slice, read_path, hp, if_true, ite_true]
    rw [ih h']
    simp

lemma fetchSlices_fail (env : Env) (table : String) (cq : Option String)
    (p : Int × Int) :
    ∀ (done rest : List (Int × Int)),
      (∀ q ∈ done, env.status (slicePath table q.1 q.2 cq) = 200) →
      env.status (slicePath table p.1 p.2 cq) ≠ 200 →
      fetchSlices env table cq (done ++ p :: rest) =
        (.error .unreachable,
         (done.flatMap fun q =>
           [Event.httpGet (slicePath table q.1 q.2 cq),
            Event.csvRead (slicePath table q.1 q.2 cq)]) ++
          [Event.httpGet (slicePath table p.1 p.2 cq)]) := by
  intro done
  induction done with
  | nil =>
    intro rest h hp
    simp only [List.nil_append, fetchSlices, get_table_slice, read_path,
      if_neg hp]
    simp
  | cons q dd ih =>
    intro rest h hp
    have hq : env.status (slicePath table q.1 q.2 cq) = 200 :=
      h q (List.mem_cons_self q dd)
    have h' : ∀ x ∈ dd, env.status (slicePath table x.1 x.2 cq) = 200 :=
      fun x hx => h x (List.mem_cons_of_mem q hx)
    simp only [List.cons_append, fetchSlices, get_table_slice, read_path, hq,
      if_true, ite_true, List.append_eq]
    rw [ih rest h' hp]
    simp

lemma get_data_none_rows (env : Env) (table : String) (m : Int) (hm : m ≠ 0) :
    get_data env table none (some m) =
      if (row_range m).length > 1 then
        match fetchSlices env table (some "")
            ((row_range m).zip (row_range m).tail) with
        | (.error e, tr3) => (.error e, tr3)
        | (.ok slices, tr3) =>
          (.ok (some (drop_duplicates (concatAll slices))), tr3)
      else (.ok none, []) := by
  simp only [get_data, get_reporting_year_query]
  rw [if_neg hm]
  simp

lemma steps_row_range_shape (t : Int) (ht : 0 ≤ t) :
    steps (row_range t) = [] ∨
      ∃ j : Nat, steps (row_range t) =
          List.replicate j CHUNK ++ [t - CHUNK * (j : Int)] ∧
        t ≤ CHUNK * ((j : Int) + 1) := by
  rcases eq_or_lt_of_le ht with h | h
  · left
    rw [← h]
    decide
  · right
    obtain ⟨j, hj⟩ : ∃ j, Kc t = j + 1 := ⟨Kc t - 1, by have := Kc_pos t h; omega⟩
    refine ⟨j, steps_row_range t j hj, ?_⟩
    have hb := le_chunk_mul_Kc t h
    have hc : ((Kc t : Int)) = (j : Int) + 1 := by exact_mod_cast congrArg Nat.cast hj
    rw [hc] at hb
    exact hb

/-- C1: for every total row count t >= 0, the chunk boundary sequence
computed by get_data starts at 0, ends at t, has every internal step
exactly 10,000 and a final step at most 10,000; for t = 25000 the
boundaries are [0, 10000, 20000, 25000] and exactly 3 slice fetches are
issued (the trace is exactly the three probe/read pairs, in order). -/
theorem C1_chunk_boundaries (t : Int) (ht : 0 ≤ t) :
    (row_range t).head? = some 0 ∧
    (row_range t).getLast? = some t ∧
    (∀ s ∈ (steps (row_range t)).dropLast, s = CHUNK) ∧
    (∀ s ∈ (steps (row_range t)).getLast?, s ≤ CHUNK) ∧
    row_range 25000 = [0, 10000, 20000, 25000] ∧
    (∀ env table,
      (∀ p ∈ (row_range 25000).zip (row_range 25000).tail,
        env.status (slicePath table p.1 p.2 (some "")) = 200) →
      (get_data env table none (some 25000)).2 =
        [Event.httpGet (slicePath table 0 10000 (some "")),
         Event.csvRead (slicePath table 0 10000 (some "")),
         Event.httpGet (slicePath table 10000 20000 (some "")),
         Event.csvRead (slicePath table 10000 20000 (some "")),
         Event.httpGet (slicePath table 20000 25000 (some "")),
         Event.csvRead (slicePath table 20000 25000 (some ""))]) := by
  refine ⟨row_range_head t ht, row_range_getLast t, ?_, ?_, by decide, ?_⟩
  · intro s hs
    rcases steps_row_range_shape t ht with h | ⟨j, h, _⟩
    · rw [h] at hs
      simp at hs
    · rw [h, List.dropLast_concat] at hs
      exact List.eq_of_mem_replicate hs
  · intro s hs
    rcases steps_row_range_shape t ht with h | ⟨j, h, hb⟩
    · rw [h] at hs
      simp at hs
    · rw [h, List.getLast?_concat] at hs
      have hs' : s = t - CHUNK * (j : Int) := by
        have := hs
        simp only [Option.mem_def, Option.some.injEq] at this
        omega
      rw [hs']
      have : CHUNK * ((j : Int) + 1) = CHUNK * (j : Int) + CHUNK := by ring
      omega
  · intro env table h
    have hzip : (row_range 25000).zip (row_range 25000).tail =
        [((0 : Int), (10000 : Int)), (10000, 20000), (20000, 25000)] := by
      decide
    rw [hzip] at h
    have hf := fetchSlices_ok env table (some "")
      [((0 : Int), (10000 : Int)), (10000, 20000), (20000, 25000)] h
    rw [get_data_none_rows env table 25000 (by norm_num)]
    rw [if_pos (by decide : (row_range 25000).length > 1), hzip, hf]
    simp

/-- Witness for C1 at the concrete total 25000 and an all-reachable
environment. -/
theorem C1_chunk_boundaries_witness :
    (0 : Int) ≤ 25000 ∧
    (row_range 25000).head? = some 0 ∧
    (row_range 25000).getLast? = some 25000 ∧
    (∀ s ∈ (steps (row_range 25000)).dropLast, s = CHUNK) ∧
    (∀ s ∈ (steps (row_range 25000)).getLast?, s ≤ CHUNK) ∧
    row_range 25000 = [0, 10000, 20000, 25000] ∧
    (get_data (constEnv dfOther) "T" none (some 25000)).2 =
      [Event.httpGet (slicePath "T" 0 10000 (some "")),
       Event.csvRead (slicePath "T" 0 10000 (some "")),
       Event.httpGet (slicePath "T" 10000 20000 (some "")),
       Event.csvRead (slicePath "T" 10000 20000 (some "")),
       Event.httpGet (slicePath "T" 20000 25000 (some "")),
       Event.csvRead (slicePath "T" 20000 25000 (some ""))] :=
  have h := C1_chunk_boundaries 25000 (by norm_num)
  ⟨by norm_num, h.1, h.2.1, h.2.2.1, h.2.2.2.1, h.2.2.2.2.1,
   h.2.2.2.2.2 (constEnv dfOther) "T" (fun _ _ => rfl)⟩

lemma read_path_trace_head (env : Env) (p : String) :
    (read_path env p).2.head? = some (Event.httpGet p) := by
  unfold read_path
  split <;> rfl

lemma get_row_count_trace (env : Env) (table : String) (q : Option String) :
    (get_row_count env table q).2 = (read_path env (countPath table q)).2 := by
  unfold get_row_count read_path
  by_cases h : env.status (countPath table q) = 200 <;>
    simp only [h, if_true, if_false, ite_true, ite_false] <;>
    (try dsimp only) <;>
    repeat first
      | rfl
      | split

lemma slicePath_none (table : String) (s e : Int) :
    slicePath table s e none =
      BASE_URL ++ "/" ++ table ++ "//rows/" ++ toString s ++ ":" ++
        toString e ++ "/csv" := by
  unfold slicePath
  simp only [Option.getD_none, String.append_empty, String.append_assoc]
  refine congrArg (BASE_URL ++ ·) ?_
  refine congrArg ("/" ++ ·) ?_
  refine congrArg (table ++ ·) ?_
  rw [← String.append_assoc]
  exact congrArg
    (· ++ (toString s ++ (":" ++ (toString e ++ "/csv")))) (by decide)

lemma countPath_none (table : String) :
    countPath table none = BASE_URL ++ "/" ++ table ++ "//count/csv" := by
  unfold countPath
  simp only [Option.getD_none, String.append_empty, String.append_assoc]
  refine congrArg (BASE_URL ++ ·) ?_
  refine congrArg ("/" ++ ·) ?_
  exact congrArg (table ++ ·) (by decide)

/-- C7: the Slice Fetcher requests exactly
{root}/{table}/{qualifier}/rows/{start}:{end}/csv and the Row Counter
exactly {root}/{table}/{qualifier}/count/csv, where {root} is the fixed
BASE_URL prefix and an empty qualifier produces a double slash. -/
theorem C7_url_construction (env : Env) (table : String) (s e : Int)
    (q : String) :
    BASE_URL = "https://enviro.epa.gov/enviro/efservice/" ∧
    (get_table_slice env table s e (some q)).2.head? =
      some (Event.httpGet (BASE_URL ++ "/" ++ table ++ "/" ++ q ++ "/rows/" ++
        toString s ++ ":" ++ toString e ++ "/csv")) ∧
    (get_row_count env table (some q)).2.head? =
      some (Event.httpGet (BASE_URL ++ "/" ++ table ++ "/" ++ q ++
        "/count/csv")) ∧
    (get_table_slice env table s e none).2.head? =
      some (Event.httpGet (BASE_URL ++ "/" ++ table ++ "//rows/" ++
        toString s ++ ":" ++ toString e ++ "/csv")) ∧
    (get_row_count env table none).2.head? =
      some (Event.httpGet (BASE_URL ++ "/" ++ table ++ "//count/csv")) := by
  refine ⟨rfl, ?_, ?_, ?_, ?_⟩
  · exact read_path_trace_head env (slicePath table s e (some q))
  · rw [get_row_count_trace]
    exact read_path_trace_head env (countPath table (some q))
  · unfold get_table_slice
    rw [slicePath_none]
    exact read_path_trace_head env _
  · rw [get_row_count_trace, countPath_none]
    exact read_path_trace_head env _

/-- C8: the URL Reader fails with the unreachable error exactly when the
probe does not return HTTP 200, with a single probe in the trace and no
retry; when the probe succeeds it returns the parsed body, the probe and
the fetch being two separate round trips against the same URL. -/
theorem C8_read_path (env : Env) (path : String) :
    ((read_path env path).1 = .error .unreachable ↔ env.status path ≠ 200) ∧
    (env.status path ≠ 200 →
      read_path env path = (.error .unreachable, [Event.httpGet path])) ∧
    (env.status path = 200 →
      read_path env path =
        (.ok (env.body path),
         [Event.httpGet path, Event.csvRead path])) := by
  unfold read_path
  by_cases h : env.status path = 200 <;> simp [h]

/-- Witness for C8 on a failing and on a succeeding environment. -/
theorem C8_read_path_witness :
    (failEnv.status "u" ≠ 200 ∧
     read_path failEnv "u" = (.error .unreachable, [Event.httpGet "u"])) ∧
    ((constEnv dfOther).status "u" = 200 ∧
     read_path (constEnv dfOther) "u" =
       (.ok dfOther, [Event.httpGet "u", Event.csvRead "u"])) :=
  ⟨⟨by decide, (C8_read_path failEnv "u").2.1 (by decide)⟩,
   ⟨rfl, (C8_read_path (constEnv dfOther) "u").2.2 rfl⟩⟩

/-- C9: a caller-supplied row limit of 0 behaves identically to no limit
at all, and in that case the Row Counter is queried (the count endpoint
round trips open the trace) instead of the limit 0 being used. -/
theorem C9_rows_zero (env : Env) (table : String) (year : Option Int) :
    get_data env table year (some 0) = get_data env table year none ∧
    (env.status (countPath table (some "")) = 200 →
      ∃ tr, (get_data env table none (some 0)).2 =
        Event.httpGet (countPath table (some "")) ::
          Event.csvRead (countPath table (some "")) :: tr) := by
  constructor
  · unfold get_data
    norm_num
  · intro h
    have htr : (get_row_count env table (some "")).2 =
        [Event.httpGet (countPath table (some "")),
         Event.csvRead (countPath table (some ""))] := by
      rw [get_row_count_trace]
      unfold read_path
      rw [if_pos h]
    rcases hres : get_row_count env table (some "") with ⟨res, tr2⟩
    rw [hres] at htr
    dsimp at htr
    subst htr
    simp only [get_data, get_reporting_year_query]
    rw [hres]
    norm_num
    rcases res with e | m
    · exact ⟨[], by simp⟩
    · dsimp only
      split
      · rcases hfs : fetchSlices env table (some "")
            ((row_range m).zip (row_range m).tail) with ⟨fres, tr3⟩
        rcases fres with e | slices <;> exact ⟨tr3, by simp⟩
      · exact ⟨[], by simp⟩

/-- Witness for C9 on an all-reachable environment. -/
theorem C9_rows_zero_witness :
    get_data (constEnv dfCount42) "T" none (some 0) =
      get_data (constEnv dfCount42) "T" none none ∧
    ((constEnv dfCount42).status (countPath "T" (some "")) = 200 ∧
     ∃ tr, (get_data (constEnv dfCount42) "T" none (some 0)).2 =
       Event.httpGet (countPath "T" (some "")) ::
         Event.csvRead (countPath "T" (some "")) :: tr) :=
  ⟨(C9_rows_zero (constEnv dfCount42) "T" none).1,
   ⟨rfl, (C9_rows_zero (constEnv dfCount42) "T" none).2 rfl⟩⟩

/-- C2: when the Row Counter determines the total and it is zero, get_data
returns the Python None sentinel rather than a table, and its trace is
exactly the counter trace (no slice fetch is issued); when the counter
total is positive and every slice URL is reachable, get_data returns a
table. -/
theorem C2_zero_total_sentinel (env : Env) (table : String) :
    (∀ tr2, get_row_count env table (some "") = (.ok 0, tr2) →
      get_data env table none none = (.ok none, tr2)) ∧
    (∀ m tr2, get_row_count env table (some "") = (.ok m, tr2) → 0 < m →
      (∀ p ∈ (row_range m).zip (row_range m).tail,
        env.status (slicePath table p.1 p.2 (some "")) = 200) →
      ∃ df, (get_data env table none none).1 = .ok (some df)) := by
  constructor
  · intro tr2 h
    simp only [get_data, get_reporting_year_query]
    rw [h]
    dsimp only
    have hlen : ¬ ((row_range 0).length > 1) := by decide
    rw [if_neg hlen]
    simp
  · intro m tr2 h hm hs
    simp only [get_data, get_reporting_year_query]
    rw [h]
    dsimp only
    have hlen : (row_range m).length > 1 := by
      rw [row_range_length]
      have := Kc_pos m (by omega)
      omega
    rw [if_pos hlen]
    rw [fetchSlices_ok env table (some "") _ hs]
    exact ⟨_, rfl⟩

/-- Witness for C2: a counter reporting 0 yields the None sentinel with a
counter-only trace, and a counter reporting 42 yields a table. -/
theorem C2_zero_total_sentinel_witness :
    (get_row_count (constEnv dfCount0) "T" (some "") =
      (.ok 0, [Event.httpGet (countPath "T" (some "")),
               Event.csvRead (countPath "T" (some ""))]) ∧
     get_data (constEnv dfCount0) "T" none none =
       (.ok none, [Event.httpGet (countPath "T" (some "")),
                   Event.csvRead (countPath "T" (some ""))])) ∧
    (get_row_count (constEnv dfCount42) "T" (some "") =
      (.ok 42, [Event.httpGet (countPath "T" (some "")),
                Event.csvRead (countPath "T" (some ""))]) ∧
     ∃ df, (get_data (constEnv dfCount42) "T" none none).1 =
       .ok (some df)) :=
  ⟨⟨by decide, (C2_zero_total_sentinel (constEnv dfCount0) "T").1
      [Event.httpGet (countPath "T" (some "")),
       Event.csvRead (countPath "T" (some ""))] (by decide)⟩,
   ⟨by decide, (C2_zero_total_sentinel (constEnv dfCount42) "T").2 42
      [Event.httpGet (countPath "T" (some "")),
       Event.csvRead (countPath "T" (some ""))]
      (by decide) (by norm_num) (fun _ _ => rfl)⟩⟩

/-- C6: a failure in year-qualifier resolution, row counting, or any slice
fetch aborts get_data immediately: the result is a bare error with no
table (previously fetched chunks are discarded), the trace shows the
failing URL probed exactly once with nothing after it (no retry), and the
driver that catches the propagated failure prints a diagnostic naming the
offending table. -/
theorem C6_failure_aborts (env : Env) (table : String) :
    (∀ y rows, env.status (probePath table) ≠ 200 →
      get_data env table (some y) rows =
        (.error .unreachable, [Event.httpGet (probePath table)])) ∧
    (env.status (countPath table (some "")) ≠ 200 →
      get_data env table none none =
        (.error .unreachable,
         [Event.httpGet (countPath table (some ""))])) ∧
    (∀ (m : Int) done p rest, m ≠ 0 →
      (row_range m).zip (row_range m).tail = done ++ p :: rest →
      (∀ q ∈ done, env.status (slicePath table q.1 q.2 (some "")) = 200) →
      env.status (slicePath table p.1 p.2 (some "")) ≠ 200 →
      get_data env table none (some m) =
        (.error .unreachable,
         (done.flatMap fun q =>
           [Event.httpGet (slicePath table q.1 q.2 (some "")),
            Event.csvRead (slicePath table q.1 q.2 (some ""))]) ++
          [Event.httpGet (slicePath table p.1 p.2 (some ""))])) ∧
    (∀ (y : Int) e tr, get_data env table (some y) none = (.error e, tr) →
      process_table_year env table y =
        .inr ("Problem with table: " ++ table ++ " (" ++ toString y ++
          ")")) := by
  refine ⟨?_, ?_, ?_, ?_⟩
  · intro y rows h
    simp only [get_data, get_reporting_year_query, read_path, h, if_false,
      ite_false]
  · intro h
    have hc : get_row_count env table (some "") =
        (.error .unreachable,
         [Event.httpGet (countPath table (some ""))]) := by
      simp only [get_row_count, read_path, h, if_false, ite_false]
    simp only [get_data, get_reporting_year_query]
    rw [hc]
    simp
  · intro m done p rest hm hsplit hdone hp
    rw [get_data_none_rows env table m hm]
    have hlen : (row_range m).length > 1 := by
      have hne : (row_range m).zip (row_range m).tail ≠ [] := by
        rw [hsplit]
        simp
      rcases hr : row_range m with _ | ⟨a, l⟩
      · rw [hr] at hne
        simp at hne
      · rcases l with _ | ⟨b, l'⟩
        · rw [hr] at hne
          simp [List.zip] at hne
        · simp
    rw [if_pos hlen, hsplit, fetchSlices_fail env table (some "") p done rest
      hdone hp]
  · intro y e tr h
    unfold process_table_year driver_message
    rw [h]

/-- Witness for C6 on an environment where every request fails. -/
theorem C6_failure_aborts_witness :
    get_data failEnv "T" (some 2020) none =
      (.error .unreachable, [Event.httpGet (probePath "T")]) ∧
    get_data failEnv "T" none none =
      (.error .unreachable, [Event.httpGet (countPath "T" (some ""))]) ∧
    get_data failEnv "T" none (some 25000) =
      (.error .unreachable,
       [Event.httpGet (slicePath "T" 0 10000 (some ""))]) ∧
    process_table_year failEnv "T" 2020 =
      .inr ("Problem with table: " ++ "T" ++ " (" ++ toString (2020 : Int) ++
        ")") :=
  have h := C6_failure_aborts failEnv "T"
  have ha := h.1 2020 none (by decide)
  ⟨ha,
   h.2.1 (by decide),
   h.2.2.1 25000 [] (0, 10000) [(10000, 20000), (20000, 25000)]
     (by norm_num) (by decide)
     (by intro q hq; exact absurd hq (List.not_mem_nil q)) (by decide),
   h.2.2.2 2020 .unreachable [Event.httpGet (probePath "T")] ha⟩

/-- C4: with no target year the Year-Qualifier Resolver returns the empty
qualifier without any network probe; with a target year it probes one row
of the table and returns reporting_year/y when some column matches
reporting_year case-insensitively, year/y when only year matches, and the
year-column error when neither matches. -/
theorem C4_year_resolver (env : Env) (table : String) (y : Int)
    (df : DataFrame) :
    get_reporting_year_query env table none = (.ok "", []) ∧
    (env.status (probePath table) = 200 → env.body (probePath table) = df →
      (("reporting_year" ∈ df.cols.map strLower →
        get_reporting_year_query env table (some y) =
          (.ok ("reporting_year/" ++ toString y),
           [Event.httpGet (probePath table),
            Event.csvRead (probePath table)])) ∧
       ("reporting_year" ∉ df.cols.map strLower →
        "year" ∈ df.cols.map strLower →
        get_reporting_year_query env table (some y) =
          (.ok ("year/" ++ toString y),
           [Event.httpGet (probePath table),
            Event.csvRead (probePath table)])) ∧
       ("reporting_year" ∉ df.cols.map strLower →
        "year" ∉ df.cols.map strLower →
        get_reporting_year_query env table (some y) =
          (.error .yearColumn,
           [Event.httpGet (probePath table),
            Event.csvRead (probePath table)])))) := by
  refine ⟨rfl, ?_⟩
  intro hs hb
  refine ⟨?_, ?_, ?_⟩
  · intro h1
    simp only [get_reporting_year_query, read_path, hs, if_true, ite_true, hb]
    rw [if_pos h1]
  · intro h1 h2
    simp only [get_reporting_year_query, read_path, hs, if_true, ite_true, hb]
    rw [if_neg h1, if_pos h2]
  · intro h1 h2
    simp only [get_reporting_year_query, read_path, hs, if_true, ite_true, hb]
    rw [if_neg h1, if_neg h2]

/-- Witness for C4 at probe schemas with a Reporting_Year column, with
only a YEAR column, and with neither. -/
theorem C4_year_resolver_witness :
    get_reporting_year_query (constEnv dfRY) "T" none = (.ok "", []) ∧
    get_reporting_year_query (constEnv dfRY) "T" (some 2021) =
      (.ok ("reporting_year/" ++ toString (2021 : Int)),
       [Event.httpGet (probePath "T"), Event.csvRead (probePath "T")]) ∧
    get_reporting_year_query (constEnv dfYEAR) "T" (some 2021) =
      (.ok ("year/" ++ toString (2021 : Int)),
       [Event.httpGet (probePath "T"), Event.csvRead (probePath "T")]) ∧
    get_reporting_year_query (constEnv dfOther) "T" (some 2021) =
      (.error .yearColumn,
       [Event.httpGet (probePath "T"), Event.csvRead (probePath "T")]) :=
  ⟨(C4_year_resolver (constEnv dfRY) "T" 2021 dfRY).1,
   ((C4_year_resolver (constEnv dfRY) "T" 2021 dfRY).2 rfl rfl).1
     (by decide),
   ((C4_year_resolver (constEnv dfYEAR) "T" 2021 dfYEAR).2 rfl rfl).2.1
     (by decide) (by decide),
   ((C4_year_resolver (constEnv dfOther) "T" 2021 dfOther).2 rfl rfl).2.2
     (by decide) (by decide)⟩

/-- C10: when the probed schema contains both a reporting_year and a year
column (case-insensitively), the resolver deterministically prefers
reporting_year. -/
theorem C10_reporting_year_precedence (env : Env) (table : String) (y : Int)
    (df : DataFrame) (hs : env.status (probePath table) = 200)
    (hb : env.body (probePath table) = df)
    (h1 : "reporting_year" ∈ df.cols.map strLower)
    (h2 : "year" ∈ df.cols.map strLower) :
    (get_reporting_year_query env table (some y)).1 =
      .ok ("reporting_year/" ++ toString y) := by
  simp only [get_reporting_year_query, read_path, hs, if_true, ite_true, hb]
  rw [if_pos h1]

/-- Witness for C10 at a schema carrying both columns. -/
theorem C10_reporting_year_precedence_witness :
    "reporting_year" ∈ dfBoth.cols.map strLower ∧
    "year" ∈ dfBoth.cols.map strLower ∧
    (get_reporting_year_query (constEnv dfBoth) "T" (some 2021)).1 =
      .ok ("reporting_year/" ++ toString (2021 : Int)) :=
  ⟨by decide, by decide,
   C10_reporting_year_precedence (constEnv dfBoth) "T" 2021 dfBoth rfl rfl
     (by decide) (by decide)⟩

/-- C3: the Row Counter returns the value of the TOTALQUERYRESULTS column
(the count-of-total-results column) when that column is present, returns
the sole column header read as an integer when the response carries no
data rows, and raises the count-format error for any other response
shape. -/
theorem C3_row_count (env : Env) (table : String) (q : Option String)
    (df : DataFrame) (hs : env.status (countPath table q) = 200)
    (hb : env.body (countPath table q) = df) :
    (∀ v n, "TOTALQUERYRESULTS" ∈ df.cols →
      colFirstValue df "TOTALQUERYRESULTS" = some v → pyInt v = some n →
      get_row_count env table q =
        (.ok n, [Event.httpGet (countPath table q),
                 Event.csvRead (countPath table q)])) ∧
    (∀ s n, "TOTALQUERYRESULTS" ∉ df.cols → dfEmpty df = true →
      df.cols = [s] → pyInt s = some n →
      get_row_count env table q =
        (.ok n, [Event.httpGet (countPath table q),
                 Event.csvRead (countPath table q)])) ∧
    ("TOTALQUERYRESULTS" ∉ df.cols → dfEmpty df = false →
      get_row_count env table q =
        (.error .countFormat,
         [Event.httpGet (countPath table q),
          Event.csvRead (countPath table q)])) := by
  refine ⟨?_, ?_, ?_⟩
  · intro v n hmem hcol hint
    simp only [get_row_count, read_path, hs, if_true, ite_true, hb]
    rw [if_pos hmem, hcol]
    dsimp only
    rw [hint]
  · intro s n hmem hempty hcols hint
    simp only [get_row_count, read_path, hs, if_true, ite_true, hb]
    rw [if_neg hmem, if_pos hempty, hcols]
    simp only [List.head?_cons]
    rw [hint]
  · intro hmem hempty
    simp only [get_row_count, read_path, hs, if_true, ite_true, hb]
    rw [if_neg hmem, if_neg (by simp [hempty])]

/-- Witness for C3 at the three response shapes of the claim: a
TOTALQUERYRESULTS value of 42, a column-less response with sole header 0,
and an unrecognized shape. -/
theorem C3_row_count_witness :
    get_row_count (constEnv dfCount42) "T" (some "") =
      (.ok 42, [Event.httpGet (countPath "T" (some "")),
                Event.csvRead (countPath "T" (some ""))]) ∧
    get_row_count (constEnv dfHeader0) "T" (some "") =
      (.ok 0, [Event.httpGet (countPath "T" (some "")),
               Event.csvRead (countPath "T" (some ""))]) ∧
    get_row_count (constEnv dfOther) "T" (some "") =
      (.error .countFormat,
       [Event.httpGet (countPath "T" (some "")),
        Event.csvRead (countPath "T" (some ""))]) :=
  ⟨(C3_row_count (constEnv dfCount42) "T" (some "") dfCount42 rfl rfl).1
      "42" 42 (by decide) (by decide) (by decide),
   (C3_row_count (constEnv dfHeader0) "T" (some "") dfHeader0 rfl rfl).2.1
      "0" 0 (by decide) (by decide) (by decide) (by decide),
   (C3_row_count (constEnv dfOther) "T" (some "") dfOther rfl rfl).2.2
      (by decide) (by decide)⟩

lemma dedupAux_congr :
    ∀ (l : List (List String)) (s1 s2 : List (List String)),
      (∀ x, x ∈ s1 ↔ x ∈ s2) → dedupAux s1 l = dedupAux s2 l := by
  intro l
  induction l with
  | nil => intro s1 s2 _; rfl
  | cons r rest ih =>
    intro s1 s2 h
    simp only [dedupAux]
    by_cases hr : r ∈ s1
    · rw [if_pos hr, if_pos ((h r).mp hr)]
      exact ih s1 s2 h
    · rw [if_neg hr, if_neg (fun hc => hr ((h r).mpr hc))]
      rw [ih (r :: s1) (r :: s2) (by intro x; simp [h x])]

lemma dedupAux_append :
    ∀ (l1 l2 seen : List (List String)),
      dedupAux seen (l1 ++ l2) =
        dedupAux seen l1 ++ dedupAux (l1 ++ seen) l2 := by
  intro l1
  induction l1 with
  | nil => intro l2 seen; simp [dedupAux]
  | cons r rest ih =>
    intro l2 seen
    simp only [List.cons_append, dedupAux, List.append_eq]
    by_cases hr : r ∈ seen
    · rw [if_pos hr, if_pos hr, ih]
      refine congrArg (dedupAux seen rest ++ ·) (dedupAux_congr l2 _ _ ?_)
      intro x
      constructor
      · intro hx
        exact List.mem_cons_of_mem r hx
      · intro hx
        rcases List.mem_cons.mp hx with hx | hx
        · subst hx
          exact List.mem_append_right rest hr
        · exact hx
    · rw [if_neg hr, if_neg hr, ih]
      simp only [List.cons_append]
      refine congrArg (r :: ·)
        (congrArg (dedupAux (r :: seen) rest ++ ·) (dedupAux_congr l2 _ _ ?_))
      intro x
      simp only [List.mem_append, List.mem_cons]
      tauto

lemma dedupAux_nodup :
    ∀ (l : List (List String)), l.Nodup →
      ∀ seen, dedupAux seen l = l.filter (fun x => decide (x ∉ seen)) := by
  intro l
  induction l with
  | nil => intro _ _; rfl
  | cons r rest ih =>
    intro hl seen
    obtain ⟨hr, hrest⟩ := List.nodup_cons.mp hl
    simp only [dedupAux, List.filter_cons]
    by_cases hs : r ∈ seen
    · rw [if_pos hs, ih hrest seen]
      simp [hs]
    · rw [if_neg hs, ih hrest (r :: seen)]
      have hfil : rest.filter (fun x => decide (x ∉ r :: seen)) =
          rest.filter (fun x => decide (x ∉ seen)) := by
        refine List.filter_congr ?_
        intro x hx
        have hxr : x ≠ r := fun hc => hr (hc ▸ hx)
        simp [List.mem_cons, hxr]
      rw [hfil]
      simp [hs]

lemma count_eq_one_of_nodup_mem {l : List (List String)} {a : List String}
    (hn : l.Nodup) (ha : a ∈ l) : l.count a = 1 := by
  induction l with
  | nil => simp at ha
  | cons b t ih =>
    obtain ⟨hb, ht⟩ := List.nodup_cons.mp hn
    rcases List.mem_cons.mp ha with h | h
    · subst h
      rw [List.count_cons_self]
      have hz : t.count a = 0 := List.count_eq_zero.mpr hb
      omega
    · rw [List.count_cons_of_ne (fun hc => hb (by rw [← hc]; exact h)),
        ih ht h]

lemma merged_rows (l1 l2 : List (List String)) (h1 : l1.Nodup)
    (h2 : l2.Nodup) :
    dedupAux [] (l1 ++ l2) = l1 ++ l2.filter (fun x => decide (x ∉ l1)) := by
  rw [dedupAux_append l1 l2 [], dedupAux_nodup l1 h1 [],
    dedupAux_nodup l2 h2 (l1 ++ [])]
  congr 1
  · simp
  · refine List.filter_congr ?_
    intro x _
    simp

/-- C5: merging two fetched slices that share exactly one identical row
(concatenation then drop_duplicates) keeps the schema, keeps that row
exactly once, preserves the multiplicity of every other row, and keeps
all rows in arrival order (the merged rows are a sublist of the
concatenation in chunk order, then within-chunk order). -/
theorem C5_dedup_merge (df1 df2 : DataFrame) (r : List String)
    (hcols : df1.cols = df2.cols)
    (h1 : df1.rows.Nodup) (h2 : df2.rows.Nodup)
    (hr1 : r ∈ df1.rows) (hr2 : r ∈ df2.rows)
    (honly : ∀ x, x ∈ df1.rows → x ∈ df2.rows → x = r) :
    (drop_duplicates (concatAll [df1, df2])).cols = df1.cols ∧
    (drop_duplicates (concatAll [df1, df2])).rows.count r = 1 ∧
    (∀ x, x ≠ r → (drop_duplicates (concatAll [df1, df2])).rows.count x =
      (df1.rows ++ df2.rows).count x) ∧
    (drop_duplicates (concatAll [df1, df2])).rows.Sublist
      (df1.rows ++ df2.rows) := by
  have hrows : (concatAll [df1, df2]).rows = df1.rows ++ df2.rows := by
    simp [concatAll]
  have hm : (drop_duplicates (concatAll [df1, df2])).rows =
      df1.rows ++ df2.rows.filter (fun x => decide (x ∉ df1.rows)) := by
    show dedupAux [] (concatAll [df1, df2]).rows = _
    rw [hrows]
    exact merged_rows df1.rows df2.rows h1 h2
  refine ⟨by simp [drop_duplicates, concatAll], ?_, ?_, ?_⟩
  · rw [hm, List.count_append]
    have hc1 : df1.rows.count r = 1 := count_eq_one_of_nodup_mem h1 hr1
    have hc2 :
        (df2.rows.filter (fun x => decide (x ∉ df1.rows))).count r = 0 := by
      rw [List.count_eq_zero]
      intro hc
      have hmem := List.mem_filter.mp hc
      simp at hmem
      exact hmem.2 hr1
    omega
  · intro x hx
    rw [hm, List.count_append, List.count_append]
    by_cases hxl : x ∈ df1.rows
    · have hx2 : x ∉ df2.rows := fun hc => hx (honly x hxl hc)
      have c2 : df2.rows.count x = 0 := List.count_eq_zero.mpr hx2
      have hsub : (df2.rows.filter
          (fun y => decide (y ∉ df1.rows))).Sublist df2.rows :=
        List.filter_sublist df2.rows
      have cf := hsub.count_le x
      omega
    · have cf : (df2.rows.filter (fun y => decide (y ∉ df1.rows))).count x =
          df2.rows.count x :=
        List.count_filter (by simpa using hxl)
      omega
  · rw [hm]
    exact (List.filter_sublist df2.rows).append_left df1.rows

/-- Witness for C5 on two slices sharing exactly the row y. -/
theorem C5_dedup_merge_witness :
    (drop_duplicates (concatAll [dfSlice1, dfSlice2])).cols =
      dfSlice1.cols ∧
    (drop_duplicates (concatAll [dfSlice1, dfSlice2])).rows.count ["y"] = 1 ∧
    (∀ x, x ≠ ["y"] →
      (drop_duplicates (concatAll [dfSlice1, dfSlice2])).rows.count x =
        (dfSlice1.rows ++ dfSlice2.rows).count x) ∧
    (drop_duplicates (concatAll [dfSlice1, dfSlice2])).rows.Sublist
      (dfSlice1.rows ++ dfSlice2.rows) :=
  C5_dedup_merge dfSlice1 dfSlice2 ["y"] rfl (by decide) (by decide)
    (by decide) (by decide)
    (by
      intro x hx1 hx2
      simp only [dfSlice1, List.mem_cons, List.not_mem_nil, or_false] at hx1
      rcases hx1 with h | h
      · subst h
        exact absurd hx2 (by decide)
      · exact h)
